import Mathlib

/-!
Shallow embedding of the MiniCore TWI/I2C bus controller (class `Twi`,
files `twi.c` / `twi.h`).

The controller's fields are modelled by the structure `Twi`; every `uint8_t`
field is a `Nat` whose arithmetic is truncated with an explicit `% 256`
wherever the C code can overflow, and `bufferSize` (a C `int`) is a `Nat`.
Writes to the hardware registers are not absorbed into the state; instead
every write of the control register `TWCR` and of the data register `TWDR`
is recorded in a trace of `Action`s, so that start conditions, stop
conditions, and ACK/NACK arming are observable.  The slave-receive callback
`twi0_onSlaveReceive(rxBuffer, rxBufferIndex)` is also recorded as an
action; the slave-transmit callback `twi0_onSlaveTransmit()` (arbitrary
user code that is expected to call `Twi::transmit`) is modelled as an
explicit function parameter `txcb : Twi → Twi` of the interrupt handler.

The busy-wait loops of the blocking entry points are modelled by phase
splitting: a call is the guard, the setup part, and then a run of
interrupt-handler invocations driven by a simulated device, exactly as the
hardware would deliver them.
-/

namespace MiniCore

/-! Status codes from avr-libc `compat/twi.h`, the values `Twi::onInterrupt`
dispatches on, and the `TWI_*` state constants from `twi.h`. -/

@[simp] def TW_START : Nat := 0x08
@[simp] def TW_REP_START : Nat := 0x10
@[simp] def TW_MT_SLA_ACK : Nat := 0x18
@[simp] def TW_MT_SLA_NACK : Nat := 0x20
@[simp] def TW_MT_DATA_ACK : Nat := 0x28
@[simp] def TW_MT_DATA_NACK : Nat := 0x30
@[simp] def TW_MT_ARB_LOST : Nat := 0x38
@[simp] def TW_MR_SLA_ACK : Nat := 0x40
@[simp] def TW_MR_SLA_NACK : Nat := 0x48
@[simp] def TW_MR_DATA_ACK : Nat := 0x50
@[simp] def TW_MR_DATA_NACK : Nat := 0x58
@[simp] def TW_SR_SLA_ACK : Nat := 0x60
@[simp] def TW_SR_ARB_LOST_SLA_ACK : Nat := 0x68
@[simp] def TW_SR_GCALL_ACK : Nat := 0x70
@[simp] def TW_SR_ARB_LOST_GCALL_ACK : Nat := 0x78
@[simp] def TW_SR_DATA_ACK : Nat := 0x80
@[simp] def TW_SR_DATA_NACK : Nat := 0x88
@[simp] def TW_SR_GCALL_DATA_ACK : Nat := 0x90
@[simp] def TW_SR_GCALL_DATA_NACK : Nat := 0x98
@[simp] def TW_SR_STOP : Nat := 0xA0
@[simp] def TW_ST_SLA_ACK : Nat := 0xA8
@[simp] def TW_ST_ARB_LOST_SLA_ACK : Nat := 0xB0
@[simp] def TW_ST_DATA_ACK : Nat := 0xB8
@[simp] def TW_ST_DATA_NACK : Nat := 0xC0
@[simp] def TW_ST_LAST_DATA : Nat := 0xC8
@[simp] def TW_NO_INFO : Nat := 0xF8
@[simp] def TW_BUS_ERROR : Nat := 0x00
@[simp] def TW_READ : Nat := 1
@[simp] def TW_WRITE : Nat := 0

@[simp] def TWI_READY : Nat := 0
@[simp] def TWI_MRX : Nat := 1
@[simp] def TWI_MTX : Nat := 2
@[simp] def TWI_SRX : Nat := 3
@[simp] def TWI_STX : Nat := 4

/-- Observable hardware effects of the controller.  `ctrl bits` is a write
of the byte `bits` to the control register `TWCR` (bit 7 = TWINT,
bit 6 = TWEA, bit 5 = TWSTA, bit 4 = TWSTO, bit 2 = TWEN, bit 0 = TWIE);
`writeTwdr b` is a write of `b` to the data register `TWDR`; `rxCallback`
records the invocation `twi0_onSlaveReceive(rxBuffer, rxBufferIndex)`. -/
inductive Action where
  | ctrl (bits : Nat)
  | writeTwdr (b : Nat)
  | rxCallback (buf : List Nat) (count : Nat)
deriving DecidableEq

/-- An action asserts a start condition iff it writes TWCR with TWSTA (bit 5) set. -/
def Action.isStart : Action → Bool
  | Action.ctrl b => b.testBit 5
  | _ => false

/-- An action asserts a stop condition iff it writes TWCR with TWSTO (bit 4) set. -/
def Action.isStop : Action → Bool
  | Action.ctrl b => b.testBit 4
  | _ => false

/-- An action records the slave-receive callback. -/
def Action.isRxCallback : Action → Bool
  | Action.rxCallback _ _ => true
  | _ => false

/-- The ACK/NACK setting armed after a list of actions: the TWEA bit (bit 6)
of the last control-register write, or the prior setting if none occurs.
This is the acknowledgement the hardware transmits for the next received
byte. -/
def armedAfter (armed : Bool) : List Action → Bool
  | [] => armed
  | Action.ctrl b :: rest => armedAfter (b.testBit 6) rest
  | _ :: rest => armedAfter armed rest

/-- The fields of class `Twi` (twi.h lines 56-69).  The register pointers
are replaced by the recorded `Action` trace; buffers are lists of bytes of
length `bufferSize`. -/
structure Twi where
  state : Nat
  slarw : Nat
  sendStop : Bool
  inRepStart : Bool
  masterBuffer : List Nat
  masterBufferIndex : Nat
  masterBufferLength : Nat
  txBuffer : List Nat
  txBufferIndex : Nat
  txBufferLength : Nat
  rxBuffer : List Nat
  rxBufferIndex : Nat
  error : Nat
  bufferSize : Nat
deriving DecidableEq

/-- Twi::Twi (twi.c 41-63): allocates the three buffers of `bufferSize`
bytes (contents indeterminate in C, modelled as zero), sets
`state = TWI_READY`, `sendStop = true`, `inRepStart = false`.  The
index/length/error fields are left uninitialised by the constructor and are
modelled as zero. -/
def Twi.new (bufferSize : Nat) : Twi where
  state := TWI_READY
  slarw := 0
  sendStop := true
  inRepStart := false
  masterBuffer := List.replicate bufferSize 0
  masterBufferIndex := 0
  masterBufferLength := 0
  txBuffer := List.replicate bufferSize 0
  txBufferIndex := 0
  txBufferLength := 0
  rxBuffer := List.replicate bufferSize 0
  rxBufferIndex := 0
  error := 0
  bufferSize := bufferSize

/-- Twi::reply (twi.c 329-337): `reply(1)` writes
`_BV(TWEN)|_BV(TWIE)|_BV(TWINT)|_BV(TWEA) = 0xC5`, `reply(0)` writes
`_BV(TWEN)|_BV(TWIE)|_BV(TWINT) = 0x85`. -/
def reply (ack : Bool) : Action :=
  if ack then Action.ctrl 0xC5 else Action.ctrl 0x85

/-- Twi::stop (twi.c 345-358): writes
`_BV(TWEN)|_BV(TWIE)|_BV(TWEA)|_BV(TWINT)|_BV(TWSTO) = 0xD5`, waits for the
stop condition to complete, and sets `state = TWI_READY`. -/
def Twi.stop (s : Twi) : Twi × List Action :=
  ({ s with state := TWI_READY }, [Action.ctrl 0xD5])

/-- Twi::releaseBus (twi.c 366-373): writes
`_BV(TWEN)|_BV(TWIE)|_BV(TWEA)|_BV(TWINT) = 0xC5` (no TWSTO) and sets
`state = TWI_READY`. -/
def Twi.releaseBus (s : Twi) : Twi × List Action :=
  ({ s with state := TWI_READY }, [Action.ctrl 0xC5])

/-- Shared tail of the `TW_MR_DATA_ACK` / `TW_MR_SLA_ACK` cases of
`Twi::onInterrupt` (twi.c 426-430, reached by fallthrough): ack if more
bytes are expected, otherwise nack. -/
def mrAck (s : Twi) : Twi × List Action :=
  if s.masterBufferIndex < s.masterBufferLength then (s, [reply true])
  else (s, [reply false])

/-- Shared tail of the `TW_ST_SLA_ACK` / `TW_ST_DATA_ACK` cases of
`Twi::onInterrupt` (twi.c 511-520, reached by fallthrough):
`*twdr = txBuffer[txBufferIndex++]`, then ack if more bytes remain,
otherwise nack. -/
def stData (s : Twi) : Twi × List Action :=
  let b := s.txBuffer.getD s.txBufferIndex 0
  let s1 := { s with txBufferIndex := (s.txBufferIndex + 1) % 256 }
  if s1.txBufferIndex < s1.txBufferLength then (s1, [Action.writeTwdr b, reply true])
  else (s1, [Action.writeTwdr b, reply false])

/-- Twi::onInterrupt (twi.c 375-537): the protocol state machine,
dispatching on `TW_STATUS`.  `txcb` models the user slave-transmit callback
`twi0_onSlaveTransmit()` (expected to call `Twi::transmit`); `twdr` is the
value the data register holds when the interrupt is raised (the byte just
received, in the receive cases).  The fallthrough from `TW_MR_DATA_ACK`
into `TW_MR_SLA_ACK` and from `TW_ST_SLA_ACK` into `TW_ST_DATA_ACK` is
modelled by the shared functions `mrAck` and `stData`. -/
def onInterrupt (txcb : Twi → Twi) (s : Twi) (status : Nat) (twdr : Nat) :
    Twi × List Action :=
  if status = TW_START ∨ status = TW_REP_START then
    -- copy device address and r/w bit to output register and ack
    (s, [Action.writeTwdr s.slarw, reply true])
  else if status = TW_MT_SLA_ACK ∨ status = TW_MT_DATA_ACK then
    if s.masterBufferIndex < s.masterBufferLength then
      ({ s with masterBufferIndex := (s.masterBufferIndex + 1) % 256 },
       [Action.writeTwdr (s.masterBuffer.getD s.masterBufferIndex 0), reply true])
    else if s.sendStop then
      s.stop
    else
      -- arm a repeated start: `*twcr = _BV(TWINT)|_BV(TWSTA)|_BV(TWEN) = 0xA4`
      ({ s with inRepStart := true, state := TWI_READY }, [Action.ctrl 0xA4])
  else if status = TW_MT_SLA_NACK then
    Twi.stop { s with error := TW_MT_SLA_NACK }
  else if status = TW_MT_DATA_NACK then
    Twi.stop { s with error := TW_MT_DATA_NACK }
  else if status = TW_MT_ARB_LOST then
    Twi.releaseBus { s with error := TW_MT_ARB_LOST }
  else if status = TW_MR_DATA_ACK then
    -- put byte into buffer, then fall through to the ack/nack decision
    mrAck { s with masterBuffer := s.masterBuffer.set s.masterBufferIndex twdr,
                   masterBufferIndex := (s.masterBufferIndex + 1) % 256 }
  else if status = TW_MR_SLA_ACK then
    mrAck s
  else if status = TW_MR_DATA_NACK then
    let s1 := { s with masterBuffer := s.masterBuffer.set s.masterBufferIndex twdr,
                       masterBufferIndex := (s.masterBufferIndex + 1) % 256 }
    if s1.sendStop then
      s1.stop
    else
      ({ s1 with inRepStart := true, state := TWI_READY }, [Action.ctrl 0xA4])
  else if status = TW_MR_SLA_NACK then
    s.stop
  else if status = TW_SR_SLA_ACK ∨ status = TW_SR_GCALL_ACK ∨
          status = TW_SR_ARB_LOST_SLA_ACK ∨ status = TW_SR_ARB_LOST_GCALL_ACK then
    ({ s with state := TWI_SRX, rxBufferIndex := 0 }, [reply true])
  else if status = TW_SR_DATA_ACK ∨ status = TW_SR_GCALL_DATA_ACK then
    if s.rxBufferIndex < s.bufferSize then
      ({ s with rxBuffer := s.rxBuffer.set s.rxBufferIndex twdr,
                rxBufferIndex := (s.rxBufferIndex + 1) % 256 }, [reply true])
    else
      (s, [reply false])
  else if status = TW_SR_STOP then
    let s1 := { s with state := TWI_READY }
    let s2 := if s1.rxBufferIndex < s1.bufferSize then
                { s1 with rxBuffer := s1.rxBuffer.set s1.rxBufferIndex 0 }
              else s1
    ({ s2 with rxBufferIndex := 0 },
     [Action.ctrl 0xC5, Action.rxCallback s2.rxBuffer s2.rxBufferIndex])
  else if status = TW_SR_DATA_NACK ∨ status = TW_SR_GCALL_DATA_NACK then
    (s, [reply false])
  else if status = TW_ST_SLA_ACK ∨ status = TW_ST_ARB_LOST_SLA_ACK then
    let s1 := txcb { s with state := TWI_STX, txBufferIndex := 0, txBufferLength := 0 }
    let s2 := if s1.txBufferLength = 0 then
                { s1 with txBufferLength := 1, txBuffer := s1.txBuffer.set 0 0 }
              else s1
    stData s2
  else if status = TW_ST_DATA_ACK then
    stData s
  else if status = TW_ST_DATA_NACK ∨ status = TW_ST_LAST_DATA then
    ({ s with state := TWI_READY }, [reply true])
  else if status = TW_NO_INFO then
    (s, [])
  else if status = TW_BUS_ERROR then
    Twi.stop { s with error := TW_BUS_ERROR }
  else
    (s, [])

/-- Writes the bytes of `src` into `dst` starting at position `i`
(`dst[i+j] = src[j]`); models the element-wise copy loops of
`Twi::writeTo` and `Twi::transmit`. -/
def copyAt (dst : List Nat) (i : Nat) : List Nat → List Nat
  | [] => dst
  | b :: bs => copyAt (dst.set i b) (i + 1) bs

/-- Twi::transmit (twi.c 300-321).  The capacity guard compares in `int`
arithmetic (no truncation); the store `txBufferLength += length` truncates
to `uint8_t`, hence the `% 256`. -/
def Twi.transmit (s : Twi) (data : List Nat) (length : Nat) : Twi × Nat :=
  if s.bufferSize < s.txBufferLength + length then (s, 1)
  else if s.state ≠ TWI_STX then (s, 2)
  else ({ s with txBuffer := copyAt s.txBuffer s.txBufferLength (data.take length),
                 txBufferLength := (s.txBufferLength + length) % 256 }, 0)

/-- Field updates performed by Twi::writeTo (twi.c 237-253) before the
start condition is handled: state becomes `TWI_MTX`, the error latch is
reset to `0xFF`, the buffer iteration variables are initialised, the data
is copied into the master buffer, and `slarw` is built from the address
and the write bit.  The source line 238 reads `sendStop = sendStop;`,
which assigns the parameter to itself, so the persistent field keeps its
prior value and no `sendStop` update appears here. -/
def Twi.writeToState (s : Twi) (address : Nat) (data : List Nat) (length : Nat) : Twi :=
  { s with
    state := TWI_MTX,
    error := 0xFF,
    masterBufferIndex := 0,
    masterBufferLength := length,
    masterBuffer := copyAt s.masterBuffer 0 (data.take length),
    slarw := (TW_WRITE ||| (address <<< 1)) % 256 }

/-- Twi::writeTo (twi.c 224-273), the part before the completion wait:
the field updates of `Twi.writeToState`, then either the pending repeated
start is continued (address byte written to `TWDR`, interrupts enabled
without TWSTA: `0xC5`) or a start condition is asserted (`0xE5`).  The
`sendStop` parameter is unused because of the self-assignment at line
238. -/
def Twi.writeToSetup (s : Twi) (address : Nat) (data : List Nat) (length : Nat)
    (sendStop : Bool) : Twi × List Action :=
  let s1 := s.writeToState address data length
  if s1.inRepStart then
    ({ s1 with inRepStart := false }, [Action.writeTwdr s1.slarw, Action.ctrl 0xC5])
  else
    (s1, [Action.ctrl 0xE5])

/-- Field updates performed by Twi::readFrom (twi.c 158-174) before the
start condition is handled.  No data is copied in, the direction bit is
`TW_READ`, and `masterBufferLength = length - 1` in `uint8_t` arithmetic,
modelled as `(length + 255) % 256` (so `length = 0` wraps to `255`).  The
source line 159 reads `sendStop = sendStop;`, a parameter self-assignment,
so the persistent field keeps its prior value. -/
def Twi.readFromState (s : Twi) (address : Nat) (length : Nat) : Twi :=
  { s with
    state := TWI_MRX,
    error := 0xFF,
    masterBufferIndex := 0,
    masterBufferLength := (length + 255) % 256,
    slarw := (TW_READ ||| (address <<< 1)) % 256 }

/-- Twi::readFrom (twi.c 146-191), the part before the completion wait:
the field updates of `Twi.readFromState`, then the start condition or the
continuation of a pending repeated start, as in `Twi.writeToSetup`. -/
def Twi.readFromSetup (s : Twi) (address : Nat) (length : Nat)
    (sendStop : Bool) : Twi × List Action :=
  let s1 := s.readFromState address length
  if s1.inRepStart then
    ({ s1 with inRepStart := false }, [Action.writeTwdr s1.slarw, Action.ctrl 0xC5])
  else
    (s1, [Action.ctrl 0xE5])

/-- Twi::writeTo (twi.c 280-287), the return-code mapping applied once the
transaction has completed. -/
def Twi.writeToRet (s : Twi) : Nat :=
  if s.error = 0xFF then 0
  else if s.error = TW_MT_SLA_NACK then 2
  else if s.error = TW_MT_DATA_NACK then 3
  else 4

/-- Response of the addressed device to one byte of a master-transmit
transaction (or to the address byte): acknowledge, not-acknowledge, or the
hardware reports lost arbitration. -/
inductive MResp where
  | ack
  | nack
  | arbLost
deriving DecidableEq

/-- Hardware/device driver for a master-transmit transaction: delivers one
interrupt per device response (the first response concerns the address
byte, later ones the data bytes) for as long as the controller remains in
`TWI_MTX`. -/
def driveWrite (txcb : Twi → Twi) : Twi → Bool → List MResp → Twi × List Action
  | s, _, [] => (s, [])
  | s, addrPhase, r :: rs =>
    if s.state = TWI_MTX then
      let status :=
        match r with
        | MResp.ack => if addrPhase then TW_MT_SLA_ACK else TW_MT_DATA_ACK
        | MResp.nack => if addrPhase then TW_MT_SLA_NACK else TW_MT_DATA_NACK
        | MResp.arbLost => TW_MT_ARB_LOST
      let step := onInterrupt txcb s status 0
      let rest := driveWrite txcb step.1 false rs
      (rest.1, step.2 ++ rest.2)
    else (s, [])

/-- A complete blocking `Twi::writeTo` call with `wait = true`: the
capacity guard (return 1, nothing else happens), then the setup, the
`TW_START` interrupt raised by the hardware after the start condition
(skipped on the repeated-start path, where the start interrupt is not
enabled), the device-driven interrupt run, and the final return-code
mapping.  Result: final state, emitted action trace, return code. -/
def Twi.writeToCall (txcb : Twi → Twi) (s : Twi) (address : Nat) (data : List Nat)
    (length : Nat) (sendStop : Bool) (resps : List MResp) :
    Twi × List Action × Nat :=
  if s.bufferSize < length then (s, [], 1)
  else
    let setup := s.writeToSetup address data length sendStop
    let started := if s.inRepStart then (setup.1, ([] : List Action))
                   else onInterrupt txcb setup.1 TW_START 0
    let run := driveWrite txcb started.1 true resps
    (run.1, setup.2 ++ started.2 ++ run.2, run.1.writeToRet)

/-- Hardware/device driver for the data phase of a master-receive
transaction: the device supplies the given bytes one per interrupt; the
acknowledgement transmitted for each byte is the one the controller armed
beforehand (`armed`), so the raised status is `TW_MR_DATA_ACK` or
`TW_MR_DATA_NACK` accordingly.  Also returns the list of acknowledgements
that went out on the wire, one per consumed byte. -/
def driveRead (txcb : Twi → Twi) : Twi → Bool → List Nat → Twi × List Action × List Bool
  | s, _, [] => (s, [], [])
  | s, armed, b :: bs =>
    if s.state = TWI_MRX then
      let step := onInterrupt txcb s (if armed then TW_MR_DATA_ACK else TW_MR_DATA_NACK) b
      let rest := driveRead txcb step.1 (armedAfter armed step.2) bs
      (rest.1, step.2 ++ rest.2.1, armed :: rest.2.2)
    else (s, [], [])

/-- A complete blocking `Twi::readFrom` call: the capacity guard (return 0,
nothing else happens), the setup, the `TW_START` interrupt (skipped on the
repeated-start path), the device's response to the address byte, the
device-driven data phase, and finally the copy-out
`length = min(length, masterBufferIndex)` of twi.c 198-206.  Result: final
state, action trace, wire acknowledgements, bytes copied to the caller,
return value. -/
def Twi.readFromCall (txcb : Twi → Twi) (s : Twi) (address : Nat) (length : Nat)
    (sendStop : Bool) (slaResp : MResp) (bytes : List Nat) :
    Twi × List Action × List Bool × List Nat × Nat :=
  if s.bufferSize < length then (s, [], [], [], 0)
  else
    let setup := s.readFromSetup address length sendStop
    let started := if s.inRepStart then (setup.1, ([] : List Action))
                   else onInterrupt txcb setup.1 TW_START 0
    let slaStatus :=
      match slaResp with
      | MResp.ack => TW_MR_SLA_ACK
      | MResp.nack => TW_MR_SLA_NACK
      | MResp.arbLost => TW_MT_ARB_LOST
    let sla := onInterrupt txcb started.1 slaStatus 0
    let run := driveRead txcb sla.1 (armedAfter true (started.2 ++ sla.2)) bytes
    let out := if run.1.masterBufferIndex < length then run.1.masterBufferIndex else length
    (run.1, setup.2 ++ started.2 ++ sla.2 ++ run.2.1, run.2.2,
     run.1.masterBuffer.take out, out)

/-- Trace of a fresh controller (capacity 32) performing
writeTo(8, [7], 1, wait, sendStop=false) followed by readFrom(8, buf, 1, sendStop=true)
against a device that acknowledges everything and supplies one byte. -/
def chainedTrace : List Action :=
  (Twi.writeToCall id (Twi.new 32) 8 [7] 1 false [MResp.ack, MResp.ack]).2.1 ++
  (Twi.readFromCall id (Twi.writeToCall id (Twi.new 32) 8 [7] 1 false
      [MResp.ack, MResp.ack]).1 8 1 true MResp.ack [9]).2.1

def bigTwi : Twi := { Twi.new 300 with state := TWI_STX, txBufferLength := 200 }

def slaveExample : Twi :=
  { Twi.new 8 with
    state := TWI_SRX
    rxBuffer := [0x61, 0x62, 0x63, 0, 0, 0, 0, 0]
    rxBufferIndex := 3 }

/-- The slave-transmit callback is user code expected to call
`Twi::transmit` only; such code leaves the receive buffer, the receive
index and the capacity untouched. -/
def txcbPreserves (txcb : Twi → Twi) : Prop :=
  ∀ t : Twi, (txcb t).rxBufferIndex = t.rxBufferIndex ∧
    (txcb t).bufferSize = t.bufferSize ∧ (txcb t).rxBuffer = t.rxBuffer

lemma mrAck_fst (s : Twi) : (mrAck s).1 = s := by
  unfold mrAck; split <;> rfl

lemma armedAfter_mrAck (a : Bool) (s : Twi) :
    armedAfter a (mrAck s).2 =
      decide (s.masterBufferIndex < s.masterBufferLength) := by
  unfold mrAck
  split <;> rename_i h <;> simp [reply, armedAfter, h] <;> decide

lemma armedAfter_append (a : Bool) (l1 l2 : List Action) :
    armedAfter a (l1 ++ l2) = armedAfter (armedAfter a l1) l2 := by
  induction l1 generalizing a with
  | nil => rfl
  | cons x xs ih => cases x <;> simp [armedAfter, ih]

lemma mrDataAck_step (txcb : Twi → Twi) (b : Nat) (s : Twi) :
    (onInterrupt txcb s TW_MR_DATA_ACK b).1 =
      { s with masterBuffer := s.masterBuffer.set s.masterBufferIndex b,
               masterBufferIndex := (s.masterBufferIndex + 1) % 256 } ∧
    (∀ a, armedAfter a (onInterrupt txcb s TW_MR_DATA_ACK b).2 =
      decide ((s.masterBufferIndex + 1) % 256 < s.masterBufferLength)) := by
  constructor
  · show (mrAck _).1 = _
    rw [mrAck_fst]
  · intro a
    show armedAfter a (mrAck _).2 = _
    rw [armedAfter_mrAck]

lemma mrDataNack_step (txcb : Twi → Twi) (b : Nat) (s : Twi) :
    (onInterrupt txcb s TW_MR_DATA_NACK b).1.masterBuffer =
      s.masterBuffer.set s.masterBufferIndex b ∧
    (onInterrupt txcb s TW_MR_DATA_NACK b).1.masterBufferIndex =
      (s.masterBufferIndex + 1) % 256 ∧
    (onInterrupt txcb s TW_MR_DATA_NACK b).1.state = TWI_READY := by
  refine ⟨?_, ?_, ?_⟩ <;>
    (simp only [onInterrupt]; norm_num [Twi.stop]; split <;> rfl)


lemma driveRead_cons (txcb : Twi → Twi) (s : Twi) (armed : Bool) (b : Nat)
    (bs : List Nat) (h : s.state = TWI_MRX) :
    driveRead txcb s armed (b :: bs) =
      ((driveRead txcb
          (onInterrupt txcb s (if armed then TW_MR_DATA_ACK else TW_MR_DATA_NACK) b).1
          (armedAfter armed
            (onInterrupt txcb s (if armed then TW_MR_DATA_ACK else TW_MR_DATA_NACK) b).2)
          bs).1,
       (onInterrupt txcb s (if armed then TW_MR_DATA_ACK else TW_MR_DATA_NACK) b).2 ++
         (driveRead txcb
           (onInterrupt txcb s (if armed then TW_MR_DATA_ACK else TW_MR_DATA_NACK) b).1
           (armedAfter armed
             (onInterrupt txcb s (if armed then TW_MR_DATA_ACK else TW_MR_DATA_NACK) b).2)
           bs).2.1,
       armed ::
         (driveRead txcb
           (onInterrupt txcb s (if armed then TW_MR_DATA_ACK else TW_MR_DATA_NACK) b).1
           (armedAfter armed
             (onInterrupt txcb s (if armed then TW_MR_DATA_ACK else TW_MR_DATA_NACK) b).2)
           bs).2.2) := by
  conv_lhs => rw [driveRead]
  rw [if_pos h]

lemma driveRead_run (txcb : Twi → Twi) (bs : List Nat) : ∀ (b : Nat) (s : Twi),
    s.state = TWI_MRX →
    s.masterBufferIndex + bs.length = s.masterBufferLength →
    s.masterBufferLength ≤ 254 →
    s.masterBufferLength < s.masterBuffer.length →
    (driveRead txcb s (decide (s.masterBufferIndex < s.masterBufferLength))
        (b :: bs)).1.masterBuffer
      = copyAt s.masterBuffer s.masterBufferIndex (b :: bs) ∧
    (driveRead txcb s (decide (s.masterBufferIndex < s.masterBufferLength))
        (b :: bs)).1.masterBufferIndex = s.masterBufferLength + 1 ∧
    (driveRead txcb s (decide (s.masterBufferIndex < s.masterBufferLength))
        (b :: bs)).1.state = TWI_READY ∧
    (driveRead txcb s (decide (s.masterBufferIndex < s.masterBufferLength))
        (b :: bs)).2.2 = List.replicate bs.length true ++ [false] := by
  induction bs with
  | nil =>
    intro b s h1 h2 h3 h4
    have hk : s.masterBufferIndex = s.masterBufferLength := by simpa using h2
    have harm : decide (s.masterBufferIndex < s.masterBufferLength) = false := by
      simp [hk]
    have hmod2 : (s.masterBufferIndex + 1) % 256 = s.masterBufferLength + 1 := by
      omega
    have hstep := mrDataNack_step txcb b s
    rw [harm]
    simp only [driveRead, if_pos h1, Bool.false_eq_true, if_false, List.length_nil,
      List.replicate_zero, List.nil_append]
    refine ⟨?_, ?_, ?_, trivial⟩
    · simpa [copyAt] using hstep.1
    · rw [hstep.2.1, hmod2]
    · exact hstep.2.2
  | cons b2 bs ih =>
    intro b s h1 h2 h3 h4
    have hk : s.masterBufferIndex < s.masterBufferLength := by
      simp at h2; omega
    have hmod : (s.masterBufferIndex + 1) % 256 = s.masterBufferIndex + 1 :=
      Nat.mod_eq_of_lt (by omega)
    have harm : decide (s.masterBufferIndex < s.masterBufferLength) = true := by
      simp [hk]
    have hstep := mrDataAck_step txcb b s
    rw [driveRead_cons txcb s _ b (b2 :: bs) h1, if_pos harm]
    rw [hstep.2 (decide (s.masterBufferIndex < s.masterBufferLength)), hstep.1]
    set s1 : Twi := { s with
      masterBuffer := s.masterBuffer.set s.masterBufferIndex b,
      masterBufferIndex := (s.masterBufferIndex + 1) % 256 } with hs1
    have c1 : s1.state = TWI_MRX := h1
    have c2 : s1.masterBufferIndex + bs.length = s1.masterBufferLength := by
      simp only [hs1, hmod]
      simp at h2 ⊢
      omega
    have c3 : s1.masterBufferLength ≤ 254 := h3
    have c4 : s1.masterBufferLength < s1.masterBuffer.length := by
      simpa [hs1] using h4
    have harm1 : decide ((s.masterBufferIndex + 1) % 256 < s.masterBufferLength)
        = decide (s1.masterBufferIndex < s1.masterBufferLength) := rfl
    rw [harm1]
    have hih := ih b2 s1 c1 c2 c3 c4
    refine ⟨?_, ?_, ?_, ?_⟩
    · rw [hih.1]
      simp only [copyAt, hs1, hmod]
    · rw [hih.2.1]
    · exact hih.2.2.1
    · rw [hih.2.2.2, harm]
      simp [List.replicate_succ]

lemma copyAt_eq : ∀ (bs dst : List Nat) (i : Nat), i + bs.length ≤ dst.length →
    copyAt dst i bs = dst.take i ++ bs ++ dst.drop (i + bs.length) := by
  intro bs
  induction bs with
  | nil => intro dst i h; simp [copyAt]
  | cons b bs ih =>
    intro dst i h
    have hlt : i < dst.length := by simp at h; omega
    rw [copyAt, ih (dst.set i b) (i + 1) (by simp; simp at h; omega)]
    rw [List.set_eq_take_cons_drop b hlt]
    rw [List.take_append_eq_append_take, List.drop_append_eq_append_drop]
    have h1 : (dst.take i).length = i := List.length_take_of_le (by omega)
    rw [h1]
    have h2 : (dst.take i).take (i + 1) = dst.take i :=
      List.take_of_length_le (by omega)
    have h3 : (dst.take i).drop (i + 1 + bs.length) = [] :=
      List.drop_eq_nil_of_le (by omega)
    rw [h2, h3]
    have h4 : i + 1 - i = 1 := by omega
    have h5 : i + 1 + bs.length - i = 1 + bs.length := by omega
    rw [h4, h5]
    simp only [List.append_assoc, List.cons_append, List.nil_append]
    rw [show (1 + bs.length) = bs.length + 1 from by omega, List.drop_succ_cons,
      List.drop_drop]
    have h6 : i + 1 + bs.length = i + (b :: bs).length := by simp; omega
    rw [h6]
    simp

lemma copyAt_take (bs dst : List Nat) (h : bs.length ≤ dst.length) :
    (copyAt dst 0 bs).take bs.length = bs := by
  rw [copyAt_eq bs dst 0 (by omega)]
  simp [List.take_left']

lemma onInterrupt_start (txcb : Twi → Twi) (s : Twi) (d : Nat) :
    onInterrupt txcb s TW_START d = (s, [Action.writeTwdr s.slarw, reply true]) := rfl

lemma onInterrupt_mrSlaAck (txcb : Twi → Twi) (s : Twi) (d : Nat) :
    onInterrupt txcb s TW_MR_SLA_ACK d = mrAck s := rfl

lemma transmit_rx (s : Twi) (data : List Nat) (length : Nat) :
    (s.transmit data length).1.rxBufferIndex = s.rxBufferIndex ∧
    (s.transmit data length).1.bufferSize = s.bufferSize ∧
    (s.transmit data length).1.rxBuffer = s.rxBuffer := by
  unfold Twi.transmit
  split
  · exact ⟨rfl, rfl, rfl⟩
  · split
    · exact ⟨rfl, rfl, rfl⟩
    · exact ⟨rfl, rfl, rfl⟩

lemma transmit_txcbPreserves (data : List Nat) (length : Nat) :
    txcbPreserves (fun t => (t.transmit data length).1) :=
  fun t => transmit_rx t data length

lemma id_txcbPreserves : txcbPreserves (fun t => t) :=
  fun _ => ⟨rfl, rfl, rfl⟩

lemma stData_rx (s : Twi) : (stData s).1.rxBufferIndex = s.rxBufferIndex ∧
    (stData s).1.bufferSize = s.bufferSize ∧ (stData s).1.rxBuffer = s.rxBuffer := by
  simp only [stData]
  refine ⟨?_, ?_, ?_⟩ <;> (split <;> rfl)

lemma mrAck_rx (s : Twi) : (mrAck s).1.rxBufferIndex = s.rxBufferIndex ∧
    (mrAck s).1.bufferSize = s.bufferSize ∧ (mrAck s).1.rxBuffer = s.rxBuffer := by
  unfold mrAck
  split <;> exact ⟨rfl, rfl, rfl⟩

lemma onInterrupt_rx_inv (txcb : Twi → Twi) (hcb : txcbPreserves txcb)
    (s : Twi) (status d : Nat) (h : s.rxBufferIndex ≤ s.bufferSize) :
    (onInterrupt txcb s status d).1.rxBufferIndex ≤
      (onInterrupt txcb s status d).1.bufferSize ∧
    ((onInterrupt txcb s status d).1.rxBuffer = s.rxBuffer ∨
      ∃ i, i < s.bufferSize ∧ ∃ v,
        (onInterrupt txcb s status d).1.rxBuffer = s.rxBuffer.set i v) := by
  unfold onInterrupt
  by_cases c1 : status = TW_START ∨ status = TW_REP_START
  · rw [if_pos c1]; exact ⟨h, Or.inl rfl⟩
  rw [if_neg c1]
  by_cases c2 : status = TW_MT_SLA_ACK ∨ status = TW_MT_DATA_ACK
  · rw [if_pos c2]
    repeat' split
    all_goals exact ⟨h, Or.inl rfl⟩
  rw [if_neg c2]
  by_cases c3 : status = TW_MT_SLA_NACK
  · rw [if_pos c3]; exact ⟨h, Or.inl rfl⟩
  rw [if_neg c3]
  by_cases c4 : status = TW_MT_DATA_NACK
  · rw [if_pos c4]; exact ⟨h, Or.inl rfl⟩
  rw [if_neg c4]
  by_cases c5 : status = TW_MT_ARB_LOST
  · rw [if_pos c5]; exact ⟨h, Or.inl rfl⟩
  rw [if_neg c5]
  by_cases c6 : status = TW_MR_DATA_ACK
  · rw [if_pos c6, (mrAck_rx _).1, (mrAck_rx _).2.1, (mrAck_rx _).2.2]
    exact ⟨h, Or.inl rfl⟩
  rw [if_neg c6]
  by_cases c7 : status = TW_MR_SLA_ACK
  · rw [if_pos c7, (mrAck_rx _).1, (mrAck_rx _).2.1, (mrAck_rx _).2.2]
    exact ⟨h, Or.inl rfl⟩
  rw [if_neg c7]
  by_cases c8 : status = TW_MR_DATA_NACK
  · rw [if_pos c8]
    simp only []
    split <;> exact ⟨h, Or.inl rfl⟩
  rw [if_neg c8]
  by_cases c9 : status = TW_MR_SLA_NACK
  · rw [if_pos c9]; exact ⟨h, Or.inl rfl⟩
  rw [if_neg c9]
  by_cases c10 : status = TW_SR_SLA_ACK ∨ status = TW_SR_GCALL_ACK ∨
      status = TW_SR_ARB_LOST_SLA_ACK ∨ status = TW_SR_ARB_LOST_GCALL_ACK
  · rw [if_pos c10]; exact ⟨Nat.zero_le _, Or.inl rfl⟩
  rw [if_neg c10]
  by_cases c11 : status = TW_SR_DATA_ACK ∨ status = TW_SR_GCALL_DATA_ACK
  · rw [if_pos c11]
    split
    · rename_i hlt
      refine ⟨?_, Or.inr ⟨s.rxBufferIndex, hlt, d, rfl⟩⟩
      show (s.rxBufferIndex + 1) % 256 ≤ s.bufferSize
      omega
    · exact ⟨h, Or.inl rfl⟩
  rw [if_neg c11]
  by_cases c12 : status = TW_SR_STOP
  · rw [if_pos c12]
    simp only []
    split
    · rename_i hlt
      exact ⟨Nat.zero_le _, Or.inr ⟨s.rxBufferIndex, hlt, 0, rfl⟩⟩
    · exact ⟨Nat.zero_le _, Or.inl rfl⟩
  rw [if_neg c12]
  by_cases c13 : status = TW_SR_DATA_NACK ∨ status = TW_SR_GCALL_DATA_NACK
  · rw [if_pos c13]; exact ⟨h, Or.inl rfl⟩
  rw [if_neg c13]
  by_cases c14 : status = TW_ST_SLA_ACK ∨ status = TW_ST_ARB_LOST_SLA_ACK
  · rw [if_pos c14]
    have hp := hcb { s with state := TWI_STX, txBufferIndex := 0, txBufferLength := 0 }
    simp only []
    split
    · refine ⟨?_, Or.inl ?_⟩
      · rw [(stData_rx _).1, (stData_rx _).2.1]
        show (txcb _).rxBufferIndex ≤ (txcb _).bufferSize
        rw [hp.1, hp.2.1]
        exact h
      · rw [(stData_rx _).2.2]
        show (txcb _).rxBuffer = s.rxBuffer
        rw [hp.2.2]
    · refine ⟨?_, Or.inl ?_⟩
      · rw [(stData_rx _).1, (stData_rx _).2.1, hp.1, hp.2.1]
        exact h
      · rw [(stData_rx _).2.2, hp.2.2]
  rw [if_neg c14]
  by_cases c15 : status = TW_ST_DATA_ACK
  · rw [if_pos c15, (stData_rx _).1, (stData_rx _).2.1, (stData_rx _).2.2]
    exact ⟨h, Or.inl rfl⟩
  rw [if_neg c15]
  by_cases c16 : status = TW_ST_DATA_NACK ∨ status = TW_ST_LAST_DATA
  · rw [if_pos c16]; exact ⟨h, Or.inl rfl⟩
  rw [if_neg c16]
  by_cases c17 : status = TW_NO_INFO
  · rw [if_pos c17]; exact ⟨h, Or.inl rfl⟩
  rw [if_neg c17]
  by_cases c18 : status = TW_BUS_ERROR
  · rw [if_pos c18]; exact ⟨h, Or.inl rfl⟩
  rw [if_neg c18]
  exact ⟨h, Or.inl rfl⟩

/-- C1 (code evidence): a fresh controller performing `writeTo(sendStop=false)`
immediately followed by `readFrom` emits TWO start conditions with a stop
condition in between, because the `sendStop = sendStop;` self-assignment at
twi.c 238 leaves the persistent field `true`; the claimed single-start,
no-intervening-stop behaviour does not occur.  The explicit trace is
start, address, ack-arm, data byte, ack-arm, stop, start, address, ack-arm,
nack-arm, stop. -/
theorem claim_C1_counterexample :
    chainedTrace =
      [Action.ctrl 0xE5, Action.writeTwdr 16, Action.ctrl 0xC5, Action.writeTwdr 7,
       Action.ctrl 0xC5, Action.ctrl 0xD5, Action.ctrl 0xE5, Action.writeTwdr 17,
       Action.ctrl 0xC5, Action.ctrl 0x85, Action.ctrl 0xD5] ∧
    (chainedTrace.filter Action.isStart).length = 2 ∧
    ((chainedTrace.take 7).filter Action.isStop).length = 1 := by
  refine ⟨by decide, by decide, by decide⟩

/-- C2: neither `writeTo` nor `readFrom` stores its `sendStop` argument into
the persistent field (the source lines 159 and 238 assign the parameter to
itself), the constructor initialises the field to `true`, and the interrupt
handler's stop-versus-repeated-start decision at the end of a master
transmission is determined by the field's prior value, not by the caller's
argument. -/
theorem claim_C2 :
    (∀ n, (Twi.new n).sendStop = true) ∧
    (∀ (s : Twi) (a : Nat) (data : List Nat) (len : Nat) (ss : Bool),
      (s.writeToSetup a data len ss).1.sendStop = s.sendStop) ∧
    (∀ (s : Twi) (a len : Nat) (ss : Bool),
      (s.readFromSetup a len ss).1.sendStop = s.sendStop) ∧
    (∀ (txcb : Twi → Twi) (s : Twi) (d : Nat),
      ¬ s.masterBufferIndex < s.masterBufferLength →
      (onInterrupt txcb s TW_MT_DATA_ACK d).2 =
        (if s.sendStop then [Action.ctrl 0xD5] else [Action.ctrl 0xA4])) := by
  refine ⟨fun n => rfl, ?_, ?_, ?_⟩
  · intro s a data len ss
    simp only [Twi.writeToSetup]
    split <;> rfl
  · intro s a len ss
    simp only [Twi.readFromSetup]
    split <;> rfl
  · intro txcb s d h
    simp only [onInterrupt, Twi.stop]
    norm_num [h]
    split <;> rfl

/-- Witness for C2 at concrete inputs. -/
theorem claim_C2_witness :
    (Twi.new 32).sendStop = true ∧
    ((Twi.new 32).writeToSetup 8 [7] 1 false).1.sendStop = true ∧
    (¬ (0 : Nat) < 0) ∧
    (onInterrupt id { Twi.new 32 with masterBufferIndex := 1, masterBufferLength := 1 }
        TW_MT_DATA_ACK 0).2 = [Action.ctrl 0xD5] := by
  refine ⟨?_, ?_, by decide, ?_⟩
  · exact claim_C2.1 32
  · rw [claim_C2.2.1 (Twi.new 32) 8 [7] 1 false]
    exact claim_C2.1 32
  · rw [claim_C2.2.2.2 id _ 0 (by decide)]
    rfl

/-- C3: for `readFrom(address, data, N, sendStop)` with `1 <= N <= capacity`
against a device that acknowledges the address, supplies exactly N bytes and
receives the armed NACK on the Nth: `masterBufferLength` is set to `N - 1`
before starting, the acknowledgement sequence on the wire is ACK repeated
N - 1 times followed by NACK on the last byte, the N bytes are copied to the
caller's array in order, and the return value is
`min(length, bytes received) = N`. -/
theorem claim_C3 (txcb : Twi → Twi) (s : Twi) (address N : Nat) (ss : Bool)
    (bytes : List Nat) (h1 : 1 ≤ N) (h2 : N ≤ 255) (h3 : N ≤ s.bufferSize)
    (hbuf : s.masterBuffer.length = s.bufferSize) (hrep : s.inRepStart = false)
    (hlen : bytes.length = N) :
    (s.readFromSetup address N ss).1.masterBufferLength = N - 1 ∧
    (s.readFromCall txcb address N ss MResp.ack bytes).2.2.1 =
      List.replicate (N - 1) true ++ [false] ∧
    (s.readFromCall txcb address N ss MResp.ack bytes).2.2.2.1 = bytes ∧
    (s.readFromCall txcb address N ss MResp.ack bytes).2.2.2.2 = N := by
  have hg : ¬ s.bufferSize < N := by omega
  have hsetup : s.readFromSetup address N ss =
      (s.readFromState address N, [Action.ctrl 0xE5]) := by
    simp only [Twi.readFromSetup]
    rw [if_neg]
    simp [Twi.readFromState, hrep]
  set t : Twi := s.readFromState address N with ht
  have hm : t.masterBufferLength = N - 1 := by
    show (N + 255) % 256 = N - 1
    omega
  refine ⟨by rw [hsetup]; exact hm, ?_⟩
  cases bytes with
  | nil => simp at hlen; omega
  | cons b bs =>
    have hbs : bs.length = N - 1 := by simp at hlen; omega
    have hcall : s.readFromCall txcb address N ss MResp.ack (b :: bs) =
        ((driveRead txcb t (decide (t.masterBufferIndex < t.masterBufferLength))
            (b :: bs)).1,
         [Action.ctrl 0xE5] ++ [Action.writeTwdr t.slarw, reply true] ++ (mrAck t).2 ++
           (driveRead txcb t (decide (t.masterBufferIndex < t.masterBufferLength))
             (b :: bs)).2.1,
         (driveRead txcb t (decide (t.masterBufferIndex < t.masterBufferLength))
           (b :: bs)).2.2,
         (driveRead txcb t (decide (t.masterBufferIndex < t.masterBufferLength))
             (b :: bs)).1.masterBuffer.take
           (if (driveRead txcb t (decide (t.masterBufferIndex < t.masterBufferLength))
               (b :: bs)).1.masterBufferIndex < N then
             (driveRead txcb t (decide (t.masterBufferIndex < t.masterBufferLength))
               (b :: bs)).1.masterBufferIndex
           else N),
         (if (driveRead txcb t (decide (t.masterBufferIndex < t.masterBufferLength))
             (b :: bs)).1.masterBufferIndex < N then
           (driveRead txcb t (decide (t.masterBufferIndex < t.masterBufferLength))
             (b :: bs)).1.masterBufferIndex
         else N)) := by
      simp only [Twi.readFromCall, if_neg hg, hsetup, hrep, Bool.false_eq_true,
        if_false, onInterrupt_start, onInterrupt_mrSlaAck, mrAck_fst,
        armedAfter_append]
      rw [show armedAfter true [Action.writeTwdr t.slarw, reply true] = true from rfl]
      rw [armedAfter_mrAck]
    have c1 : t.state = TWI_MRX := rfl
    have c2 : t.masterBufferIndex + bs.length = t.masterBufferLength := by
      show 0 + bs.length = (N + 255) % 256
      omega
    have c3 : t.masterBufferLength ≤ 254 := by rw [hm]; omega
    have c4 : t.masterBufferLength < t.masterBuffer.length := by
      have : t.masterBuffer = s.masterBuffer := rfl
      rw [this, hm, hbuf]; omega
    have hrun := driveRead_run txcb bs b t c1 c2 c3 c4
    have hidx : (driveRead txcb t (decide (t.masterBufferIndex < t.masterBufferLength))
        (b :: bs)).1.masterBufferIndex = N := by
      rw [hrun.2.1, hm]; omega
    refine ⟨?_, ?_, ?_⟩
    · rw [hcall]
      show (driveRead txcb t _ _).2.2 = _
      rw [hrun.2.2.2, hbs]
    · rw [hcall]
      show ((driveRead txcb t _ _).1.masterBuffer.take _) = _
      rw [hidx]
      rw [if_neg (by omega)]
      rw [hrun.1]
      have hcb : t.masterBuffer = s.masterBuffer := rfl
      have hti : t.masterBufferIndex = 0 := rfl
      rw [hcb, hti]
      have hblen : (b :: bs).length = N := by simp [hbs]; omega
      calc (copyAt s.masterBuffer 0 (b :: bs)).take N
          = (copyAt s.masterBuffer 0 (b :: bs)).take (b :: bs).length := by rw [hblen]
        _ = b :: bs := copyAt_take (b :: bs) s.masterBuffer (by rw [hblen, hbuf]; omega)
    · rw [hcall]
      show (if (driveRead txcb t _ _).1.masterBufferIndex < N then _ else N) = N
      rw [hidx, if_neg (by omega)]

/-- Witness for C3: capacity 32, N = 3, device bytes 11, 22, 33. -/
theorem claim_C3_witness :
    ((1 : Nat) ≤ 3) ∧ ((3 : Nat) ≤ 255) ∧ (3 ≤ (Twi.new 32).bufferSize) ∧
    ((Twi.new 32).masterBuffer.length = (Twi.new 32).bufferSize) ∧
    ((Twi.new 32).inRepStart = false) ∧ (([11, 22, 33] : List Nat).length = 3) ∧
    ((Twi.new 32).readFromSetup 8 3 true).1.masterBufferLength = 2 ∧
    ((Twi.new 32).readFromCall id 8 3 true MResp.ack [11, 22, 33]).2.2.1 =
      [true, true, false] ∧
    ((Twi.new 32).readFromCall id 8 3 true MResp.ack [11, 22, 33]).2.2.2.1 =
      [11, 22, 33] ∧
    ((Twi.new 32).readFromCall id 8 3 true MResp.ack [11, 22, 33]).2.2.2.2 = 3 := by
  have h := claim_C3 id (Twi.new 32) 8 3 true [11, 22, 33] (by decide) (by decide)
    (by decide) (by decide) (by decide) (by decide)
  refine ⟨by decide, by decide, by decide, by decide, by decide, by decide,
    ?_, ?_, h.2.2.1, h.2.2.2⟩
  · exact h.1
  · exact h.2.1.trans (by decide)

/-- C4: for a completed `writeTo` transaction (wait = true): the error latch
is reset to the sentinel `0xFF` by the setup; a clear latch maps to return
code 0; the handler latches address-NACK and issues a stop condition, after
which the mapping yields 2; it latches data-NACK with a stop, yielding 3; on
arbitration lost it latches the error, releases the bus with a single
control write that asserts no stop condition, sets state to Ready, and the
mapping yields 4; any other latched error also maps to 4.  The final three
conjuncts run whole transactions: an address-NACK device gives return code
2, a data-NACK device gives 3, and an arbitration loss gives 4 with the
controller back in Ready. -/
theorem claim_C4 :
    (∀ (s : Twi) (a : Nat) (data : List Nat) (len : Nat) (ss : Bool),
      (s.writeToSetup a data len ss).1.error = 0xFF) ∧
    (∀ s : Twi, s.error = 0xFF → s.writeToRet = 0) ∧
    (∀ (txcb : Twi → Twi) (s : Twi) (d : Nat),
      (onInterrupt txcb s TW_MT_SLA_NACK d).1.error = TW_MT_SLA_NACK ∧
      (onInterrupt txcb s TW_MT_SLA_NACK d).2 = [Action.ctrl 0xD5] ∧
      (onInterrupt txcb s TW_MT_SLA_NACK d).1.writeToRet = 2) ∧
    (∀ (txcb : Twi → Twi) (s : Twi) (d : Nat),
      (onInterrupt txcb s TW_MT_DATA_NACK d).1.error = TW_MT_DATA_NACK ∧
      (onInterrupt txcb s TW_MT_DATA_NACK d).2 = [Action.ctrl 0xD5] ∧
      (onInterrupt txcb s TW_MT_DATA_NACK d).1.writeToRet = 3) ∧
    (∀ (txcb : Twi → Twi) (s : Twi) (d : Nat),
      (onInterrupt txcb s TW_MT_ARB_LOST d).1.error = TW_MT_ARB_LOST ∧
      (onInterrupt txcb s TW_MT_ARB_LOST d).2 = [Action.ctrl 0xC5] ∧
      (∀ a ∈ (onInterrupt txcb s TW_MT_ARB_LOST d).2, a.isStop = false) ∧
      (onInterrupt txcb s TW_MT_ARB_LOST d).1.state = TWI_READY ∧
      (onInterrupt txcb s TW_MT_ARB_LOST d).1.writeToRet = 4) ∧
    (∀ s : Twi, s.error ≠ 0xFF → s.error ≠ TW_MT_SLA_NACK → s.error ≠ TW_MT_DATA_NACK →
      s.writeToRet = 4) ∧
    (∀ (txcb : Twi → Twi) (s : Twi) (a : Nat) (data : List Nat) (len : Nat) (ss : Bool),
      ¬ s.bufferSize < len → s.inRepStart = false →
      (s.writeToCall txcb a data len ss [MResp.nack]).2.2 = 2) ∧
    (∀ (txcb : Twi → Twi) (s : Twi) (a : Nat) (data : List Nat) (len : Nat) (ss : Bool),
      ¬ s.bufferSize < len → s.inRepStart = false → 0 < len →
      (s.writeToCall txcb a data len ss [MResp.ack, MResp.nack]).2.2 = 3) ∧
    (∀ (txcb : Twi → Twi) (s : Twi) (a : Nat) (data : List Nat) (len : Nat) (ss : Bool),
      ¬ s.bufferSize < len → s.inRepStart = false →
      (s.writeToCall txcb a data len ss [MResp.arbLost]).2.2 = 4 ∧
      (s.writeToCall txcb a data len ss [MResp.arbLost]).1.state = TWI_READY) := by
  refine ⟨?_, ?_, ?_, ?_, ?_, ?_, ?_, ?_, ?_⟩
  · intro s a data len ss
    simp only [Twi.writeToSetup]
    split <;> rfl
  · intro s h; simp [Twi.writeToRet, h]
  · intro txcb s d
    refine ⟨rfl, rfl, ?_⟩
    simp [onInterrupt, Twi.stop, Twi.writeToRet]
  · intro txcb s d
    refine ⟨rfl, rfl, ?_⟩
    simp [onInterrupt, Twi.stop, Twi.writeToRet]
  · intro txcb s d
    refine ⟨rfl, rfl, ?_, rfl, ?_⟩
    · intro a ha
      simp only [onInterrupt, Twi.releaseBus] at ha
      norm_num at ha
      subst ha
      rfl
    · simp [onInterrupt, Twi.releaseBus, Twi.writeToRet]
  · intro s h1 h2 h3
    simp only [TW_MT_SLA_NACK] at h2
    simp only [TW_MT_DATA_NACK] at h3
    simp [Twi.writeToRet, h1, h2, h3]
  · intro txcb s a data len ss hg hrep
    simp [Twi.writeToCall, Twi.writeToSetup, Twi.writeToState, hg, hrep, onInterrupt,
      driveWrite, Twi.writeToRet, Twi.stop, reply]
  · intro txcb s a data len ss hg hrep hl
    simp [Twi.writeToCall, Twi.writeToSetup, Twi.writeToState, hg, hrep, onInterrupt,
      driveWrite, Twi.writeToRet, Twi.stop, reply, hl]
  · intro txcb s a data len ss hg hrep
    constructor <;>
    simp [Twi.writeToCall, Twi.writeToSetup, Twi.writeToState, hg, hrep, onInterrupt,
      driveWrite, Twi.writeToRet, Twi.releaseBus, reply]

/-- Witness for C4 at concrete inputs. -/
theorem claim_C4_witness :
    ((Twi.new 32).writeToSetup 8 [7] 1 true).1.error = 0xFF ∧
    (Twi.new 32).writeToRet = 4 ∧
    (onInterrupt id (Twi.new 32) TW_MT_SLA_NACK 0).1.writeToRet = 2 ∧
    (onInterrupt id (Twi.new 32) TW_MT_DATA_NACK 0).1.writeToRet = 3 ∧
    (onInterrupt id (Twi.new 32) TW_MT_ARB_LOST 0).1.writeToRet = 4 ∧
    (Twi.new 32).error ≠ 0xFF := by
  refine ⟨claim_C4.1 (Twi.new 32) 8 [7] 1 true, ?_, (claim_C4.2.2.1 id (Twi.new 32) 0).2.2,
    (claim_C4.2.2.2.1 id (Twi.new 32) 0).2.2,
    (claim_C4.2.2.2.2.1 id (Twi.new 32) 0).2.2.2.2, by decide⟩
  exact claim_C4.2.2.2.2.2.1 (Twi.new 32) (by decide) (by decide) (by decide)

/-- C5: a `writeTo` call with `length > bufferSize` returns 1 immediately,
with no hardware action and no state change; a `readFrom` call with
`length > bufferSize` likewise returns 0 immediately; and at
`length = bufferSize` both pass the guard (hardware actions are emitted). -/
theorem claim_C5 (txcb : Twi → Twi) (s : Twi) (a : Nat) (data : List Nat) (len : Nat)
    (ss : Bool) (resps : List MResp) (slaResp : MResp) (bytes : List Nat) :
    (s.bufferSize < len → s.writeToCall txcb a data len ss resps = (s, [], 1)) ∧
    (s.bufferSize < len → s.readFromCall txcb a len ss slaResp bytes = (s, [], [], [], 0)) ∧
    (s.writeToCall txcb a data s.bufferSize ss resps).2.1 ≠ [] ∧
    (s.readFromCall txcb a s.bufferSize ss slaResp bytes).2.1 ≠ [] := by
  refine ⟨?_, ?_, ?_, ?_⟩
  · intro h; simp [Twi.writeToCall, h]
  · intro h; simp [Twi.readFromCall, h]
  · simp only [Twi.writeToCall, Twi.writeToSetup, lt_irrefl, if_false]
    split <;> simp
  · simp only [Twi.readFromCall, Twi.readFromSetup, lt_irrefl, if_false]
    split <;> simp

/-- Witness for C5: capacity 32, lengths 33 and 32. -/
theorem claim_C5_witness :
    ((32 : Nat) < 33) ∧
    (Twi.new 32).writeToCall id 8 [7] 33 true [] = (Twi.new 32, [], 1) ∧
    (Twi.new 32).readFromCall id 8 33 true MResp.ack [] = (Twi.new 32, [], [], [], 0) ∧
    ((Twi.new 32).writeToCall id 8 [7] 32 true []).2.1 ≠ [] := by
  have h := claim_C5 id (Twi.new 32) 8 [7] 33 true [] MResp.ack []
  have h32 := claim_C5 id (Twi.new 32) 8 [7] 32 true [] MResp.ack []
  exact ⟨by decide, h.1 (by decide), h.2.1 (by decide), h32.2.2.1⟩

/-- C6: when the slave-receiver branch observes a stop or repeated-start
condition after k stored bytes with `k < bufferSize`, the handler releases
the bus (state Ready, control write `0xC5`, no stop condition asserted),
writes a null terminator at receive-buffer index k, invokes the receive
collaborator exactly once with the buffer and count k, and resets the
receive index to 0. -/
theorem claim_C6 (txcb : Twi → Twi) (s : Twi) (d : Nat)
    (h : s.rxBufferIndex < s.bufferSize) :
    onInterrupt txcb s TW_SR_STOP d =
      ({ s with state := TWI_READY,
                rxBuffer := s.rxBuffer.set s.rxBufferIndex 0,
                rxBufferIndex := 0 },
       [Action.ctrl 0xC5, Action.rxCallback (s.rxBuffer.set s.rxBufferIndex 0)
          s.rxBufferIndex]) ∧
    (∀ a ∈ (onInterrupt txcb s TW_SR_STOP d).2, a.isStop = false) ∧
    ((onInterrupt txcb s TW_SR_STOP d).2.countP Action.isRxCallback) = 1 := by
  have heq : onInterrupt txcb s TW_SR_STOP d =
      ({ s with state := TWI_READY,
                rxBuffer := s.rxBuffer.set s.rxBufferIndex 0,
                rxBufferIndex := 0 },
       [Action.ctrl 0xC5, Action.rxCallback (s.rxBuffer.set s.rxBufferIndex 0)
          s.rxBufferIndex]) := by
    simp [onInterrupt, h]
  refine ⟨heq, ?_, ?_⟩
  · intro a ha
    rw [heq] at ha
    simp only [List.mem_cons, List.not_mem_nil, or_false] at ha
    rcases ha with ha | ha <;> subst ha <;> rfl
  · rw [heq]
    simp [List.countP, List.countP.go, Action.isRxCallback]

/-- Witness for C6: capacity 8, three received bytes, then stop. -/
theorem claim_C6_witness :
    slaveExample.rxBufferIndex < slaveExample.bufferSize ∧
    (onInterrupt id slaveExample TW_SR_STOP 0).2 =
      [Action.ctrl 0xC5, Action.rxCallback [0x61, 0x62, 0x63, 0, 0, 0, 0, 0] 3] ∧
    (onInterrupt id slaveExample TW_SR_STOP 0).1.state = TWI_READY ∧
    (onInterrupt id slaveExample TW_SR_STOP 0).1.rxBufferIndex = 0 := by
  have h := claim_C6 id slaveExample 0 (by decide)
  refine ⟨by decide, ?_, ?_, ?_⟩
  · rw [h.1]
    rfl
  · rw [h.1]
  · rw [h.1]

/-- C7 counterexample to the claim as stated: with capacity 300,
`txBufferLength = 200` and `length = 100` the call passes both guards and
returns 0, but the `uint8_t` store `txBufferLength += length` wraps to
`300 % 256 = 44`, so `txBufferLength` does not increase by exactly
`length`. -/
theorem claim_C7_counterexample :
    (bigTwi.transmit (List.replicate 100 7) 100).2 = 0 ∧
    (bigTwi.transmit (List.replicate 100 7) 100).1.txBufferLength = 44 ∧
    bigTwi.txBufferLength + 100 = 300 ∧ (44 : Nat) ≠ 300 := by
  refine ⟨by decide, by decide, by decide, by decide⟩

/-- C7 (amended): `transmit(data, length)` returns 1 leaving the state
unchanged when `txBufferLength + length` exceeds the capacity; returns 2
leaving the state unchanged when the capacity check passes but the state is
not SlaveTransmitting; otherwise appends the `length` bytes at offset
`txBufferLength`, returns 0, and increases `txBufferLength` by exactly
`length` reduced modulo 256 - which equals `length` whenever
`txBufferLength + length` is at most 255, in particular for every capacity
below 256, but wraps for larger capacities (see the counterexample). -/
theorem claim_C7 (s : Twi) (data : List Nat) (len : Nat) :
    (s.bufferSize < s.txBufferLength + len → s.transmit data len = (s, 1)) ∧
    (¬ s.bufferSize < s.txBufferLength + len → s.state ≠ TWI_STX →
      s.transmit data len = (s, 2)) ∧
    (¬ s.bufferSize < s.txBufferLength + len → s.state = TWI_STX →
      (s.transmit data len).2 = 0 ∧
      (s.transmit data len).1.txBuffer = copyAt s.txBuffer s.txBufferLength (data.take len) ∧
      (s.transmit data len).1.txBufferLength = (s.txBufferLength + len) % 256) ∧
    (¬ s.bufferSize < s.txBufferLength + len → s.state = TWI_STX →
      s.txBufferLength + len ≤ 255 →
      (s.transmit data len).1.txBufferLength = s.txBufferLength + len) := by
  refine ⟨?_, ?_, ?_, ?_⟩
  · intro h; simp [Twi.transmit, h]
  · intro h hs
    have hs4 : s.state ≠ 4 := by simpa using hs
    simp [Twi.transmit, h, hs4]
  · intro h hs; simp [Twi.transmit, h, hs]
  · intro h hs hle
    have hm : (s.txBufferLength + len) % 256 = s.txBufferLength + len :=
      Nat.mod_eq_of_lt (by omega)
    simp [Twi.transmit, h, hs, hm]

/-- Witness for the amended C7: capacity 8, two buffered bytes, three more. -/
theorem claim_C7_witness :
    let s : Twi := { Twi.new 8 with state := TWI_STX, txBufferLength := 2 }
    ¬ s.bufferSize < s.txBufferLength + 3 ∧ s.state = TWI_STX ∧ s.txBufferLength + 3 ≤ 255 ∧
    (s.transmit [5, 6, 7] 3).2 = 0 ∧
    (s.transmit [5, 6, 7] 3).1.txBufferLength = 5 := by
  intro s
  have h := claim_C7 s [5, 6, 7] 3
  exact ⟨by decide, by decide, by decide, (h.2.2.1 (by decide) (by decide)).1,
    h.2.2.2 (by decide) (by decide) (by decide)⟩

/-- C8: on a slave-receiver data event, if `rxBufferIndex < bufferSize` the
byte is stored at `rxBufferIndex`, the index is incremented (mod 256) and
ACK is replied; otherwise nothing is stored and NACK is replied.
Consequently, across every handler dispatch (with a transmit callback that
only touches the transmit buffer), `rxBufferIndex` at most `bufferSize` is
preserved and the receive buffer is only ever written through `set` at an
index strictly below `bufferSize`. -/
theorem claim_C8 (txcb : Twi → Twi) (hcb : txcbPreserves txcb) :
    (∀ (s : Twi) (d : Nat), s.rxBufferIndex < s.bufferSize →
      onInterrupt txcb s TW_SR_DATA_ACK d =
        ({ s with rxBuffer := s.rxBuffer.set s.rxBufferIndex d,
                  rxBufferIndex := (s.rxBufferIndex + 1) % 256 },
         [Action.ctrl 0xC5])) ∧
    (∀ (s : Twi) (d : Nat), ¬ s.rxBufferIndex < s.bufferSize →
      onInterrupt txcb s TW_SR_DATA_ACK d = (s, [Action.ctrl 0x85])) ∧
    (∀ (s : Twi) (status d : Nat), s.rxBufferIndex ≤ s.bufferSize →
      (onInterrupt txcb s status d).1.rxBufferIndex ≤
        (onInterrupt txcb s status d).1.bufferSize) ∧
    (∀ (s : Twi) (status d : Nat), s.rxBufferIndex ≤ s.bufferSize →
      (onInterrupt txcb s status d).1.rxBuffer = s.rxBuffer ∨
        ∃ i, i < s.bufferSize ∧ ∃ v,
          (onInterrupt txcb s status d).1.rxBuffer = s.rxBuffer.set i v) := by
  refine ⟨?_, ?_, ?_, ?_⟩
  · intro s d hlt
    simp [onInterrupt, hlt, reply]
  · intro s d hge
    simp [onInterrupt, hge, reply]
  · intro s status d h
    exact (onInterrupt_rx_inv txcb hcb s status d h).1
  · intro s status d h
    exact (onInterrupt_rx_inv txcb hcb s status d h).2

/-- Witness for C8: capacity 4, a transmit-based callback. -/
theorem claim_C8_witness :
    txcbPreserves (fun t => (t.transmit [1] 1).1) ∧
    ((2 : Nat) < 4) ∧
    (onInterrupt (fun t => (t.transmit [1] 1).1)
        { Twi.new 4 with state := TWI_SRX, rxBufferIndex := 2 } TW_SR_DATA_ACK 9).1.rxBufferIndex = 3 ∧
    ((4 : Nat) ≤ 4) ∧
    (onInterrupt (fun t => (t.transmit [1] 1).1)
        { Twi.new 4 with state := TWI_SRX, rxBufferIndex := 4 } TW_SR_DATA_ACK 9).1.rxBufferIndex ≤
      (onInterrupt (fun t => (t.transmit [1] 1).1)
        { Twi.new 4 with state := TWI_SRX, rxBufferIndex := 4 } TW_SR_DATA_ACK 9).1.bufferSize := by
  have hcb := transmit_txcbPreserves [1] 1
  have h := claim_C8 (fun t => (t.transmit [1] 1).1) hcb
  refine ⟨hcb, by decide, ?_, by decide, ?_⟩
  · rw [h.1 { Twi.new 4 with state := TWI_SRX, rxBufferIndex := 2 } 9 (by decide)]
    rfl
  · exact h.2.2.1 { Twi.new 4 with state := TWI_SRX, rxBufferIndex := 4 } TW_SR_DATA_ACK 9
      (by decide)

/-- C9: `readFrom` with `length = 0` passes the capacity guard, and the
`uint8_t` computation `length - 1` wraps so that `masterBufferLength`
becomes 255; the handler's comparison of `masterBufferIndex` against
`masterBufferLength` then replies ACK (continues) for every index below 255
instead of terminating immediately. -/
theorem claim_C9 (txcb : Twi → Twi) (s : Twi) (a : Nat) (ss : Bool) (d : Nat) :
    ¬ s.bufferSize < 0 ∧
    (s.readFromSetup a 0 ss).1.masterBufferLength = 255 ∧
    (∀ k, k < 255 →
      (onInterrupt txcb { (s.readFromSetup a 0 ss).1 with masterBufferIndex := k }
          TW_MR_SLA_ACK d).2 = [Action.ctrl 0xC5]) := by
  refine ⟨by omega, ?_, ?_⟩
  · simp only [Twi.readFromSetup]
    split <;> rfl
  · intro k hk
    have hmbl : (s.readFromSetup a 0 ss).1.masterBufferLength = 255 := by
      simp only [Twi.readFromSetup]; split <;> rfl
    simp only [onInterrupt, mrAck, reply]
    norm_num [hmbl, hk]

/-- Witness for C9 at concrete inputs. -/
theorem claim_C9_witness :
    ¬ (Twi.new 32).bufferSize < 0 ∧
    ((Twi.new 32).readFromSetup 8 0 true).1.masterBufferLength = 255 ∧
    ((0 : Nat) < 255) ∧
    (onInterrupt id { ((Twi.new 32).readFromSetup 8 0 true).1 with masterBufferIndex := 0 }
        TW_MR_SLA_ACK 0).2 = [Action.ctrl 0xC5] := by
  have h := claim_C9 id (Twi.new 32) 8 true 0
  exact ⟨h.1, h.2.1, by decide, h.2.2 0 (by decide)⟩

/-- C10: in `transmit` the capacity check precedes the state check: when
both `txBufferLength + length > bufferSize` and the state is not
SlaveTransmitting, the return value is 1 (buffer overflow), not 2. -/
theorem claim_C10 (s : Twi) (data : List Nat) (len : Nat)
    (h1 : s.bufferSize < s.txBufferLength + len) (h2 : s.state ≠ TWI_STX) :
    (s.transmit data len).2 = 1 ∧ (s.transmit data len).2 ≠ 2 := by
  simp [Twi.transmit, h1]

/-- Witness for C10: capacity 4, five bytes, state Ready. -/
theorem claim_C10_witness :
    let s : Twi := Twi.new 4
    s.bufferSize < s.txBufferLength + 5 ∧ s.state ≠ TWI_STX ∧
    (s.transmit [1, 2, 3, 4, 5] 5).2 = 1 ∧ (s.transmit [1, 2, 3, 4, 5] 5).2 ≠ 2 := by
  intro s
  have h := claim_C10 s [1, 2, 3, 4, 5] 5 (by decide) (by decide)
  exact ⟨by decide, by decide, h.1, h.2⟩

end MiniCore
